import Mathlib

/-!
Shallow embedding of `src/dev/src/field-value.ts` from the
`nodejs-firestore` repository: the `FieldValue` sentinel / field-transform
hierarchy (Delete, ServerTimestamp, NumericIncrement, ArrayUnion,
ArrayRemove), its classification flags, equality semantics, validation and
proto encoding.

Reference identity of JavaScript objects is modelled with an explicit
instance id carried by every `FieldValue`: the two singleton sentinels own
the fixed ids 0 and 1, and every fresh construction is given its id by the
caller (two independently constructed instances have distinct ids).
External collaborators (the value serializer and the recursive user-input
validator from `serializer.ts` / `validate.ts`) are passed in as
parameters, as the spec treats them as opaque capabilities.
-/

namespace Firestore

/-- The JavaScript number universe as far as equality semantics are
concerned: NaN, negative zero, the two infinities, and finite values
(`fin q` stands for the finite number `q`; `fin 0` is positive zero).
JavaScript makes no distinction between `1` and `1.0`: both are the single
value `fin 1`. -/
inductive JSNum where
  | nan
  | negZero
  | inf
  | negInf
  | fin (q : ℚ)
deriving DecidableEq

/-- JavaScript strict equality `===` on numbers: `NaN` is unequal to
everything including itself, and `-0 === 0` holds. -/
def JSNum.strictEq : JSNum → JSNum → Bool
  | .nan, _ => false
  | _, .nan => false
  | .negZero, .negZero => true
  | .negZero, .fin q => q == 0
  | .fin q, .negZero => q == 0
  | .fin p, .fin q => p == q
  | .inf, .inf => true
  | .negInf, .negInf => true
  | _, _ => false

/-- The universe of JavaScript values that can appear as a transform
payload: primitives and (nested) arrays. `undef` is `undefined`. Two
distinct array literals are distinct object references. -/
inductive JSValue where
  | num (n : JSNum)
  | str (s : String)
  | boolean (b : Bool)
  | null
  | undef
  | arr (elements : List JSValue)

/-- Mirrors `Array.isArray(value)`. -/
def JSValue.isArray : JSValue → Bool
  | .arr _ => true
  | _ => false

/-- Mirrors `typeof value === 'number'`. -/
def JSValue.isNumber : JSValue → Bool
  | .num _ => true
  | _ => false

/-- JavaScript strict equality `===` on values. Objects (arrays) compare by
reference; independently constructed array values are never `===`, which is
what this embedding's `arr` case captures (payloads of two distinct
transform instances are distinct objects). -/
def JSValue.strictEq : JSValue → JSValue → Bool
  | .num a, .num b => JSNum.strictEq a b
  | .str a, .str b => a == b
  | .boolean a, .boolean b => a == b
  | .null, .null => true
  | .undef, .undef => true
  | _, _ => false

mutual

/-- The `fast-deep-equal` predicate used by the array transforms: structural
recursion through arrays, `===` on primitives except that two NaNs are
considered equal (`a !== a && b !== b` fallback in the library). -/
def JSValue.deepEqual : JSValue → JSValue → Bool
  | .arr xs, .arr ys => JSValue.deepEqualList xs ys
  | .num JSNum.nan, .num JSNum.nan => true
  | a, b => JSValue.strictEq a b

/-- Elementwise `fast-deep-equal` on arrays: equal lengths and pairwise
deep-equal elements, in order. -/
def JSValue.deepEqualList : List JSValue → List JSValue → Bool
  | [], [] => true
  | x :: xs, y :: ys => JSValue.deepEqual x y && JSValue.deepEqualList xs ys
  | _, _ => false

end

/-- The five concrete subclasses of the abstract `FieldTransform`, as a
closed family with each class's payload: `DeleteTransform` and
`ServerTimestampTransform` carry none, `NumericIncrementTransform` carries
its operand, the two array transforms carry their element list. -/
inductive TransformData where
  | delete
  | serverTimestamp
  | numericIncrement (operand : JSValue)
  | arrayUnion (elements : List JSValue)
  | arrayRemove (elements : List JSValue)

/-- The transform kinds, for classifying a `TransformData` without its
payload. -/
inductive TransformKind where
  | delete
  | serverTimestamp
  | numericIncrement
  | arrayUnion
  | arrayRemove
deriving DecidableEq

/-- The kind of a transform instance (its runtime class). -/
def TransformData.kind : TransformData → TransformKind
  | .delete => .delete
  | .serverTimestamp => .serverTimestamp
  | .numericIncrement _ => .numericIncrement
  | .arrayUnion _ => .arrayUnion
  | .arrayRemove _ => .arrayRemove

/-- The per-class `includeInDocumentMask` getter: `true` in
`DeleteTransform`, `false` in the four other subclasses. -/
def TransformData.includeInDocumentMask : TransformData → Bool
  | .delete => true
  | .serverTimestamp => false
  | .numericIncrement _ => false
  | .arrayUnion _ => false
  | .arrayRemove _ => false

/-- The per-class `includeInDocumentTransform` getter: `false` in
`DeleteTransform`, `true` in the four other subclasses. -/
def TransformData.includeInDocumentTransform : TransformData → Bool
  | .delete => false
  | .serverTimestamp => true
  | .numericIncrement _ => true
  | .arrayUnion _ => true
  | .arrayRemove _ => true

/-- The per-class `methodName` getter. -/
def TransformData.methodName : TransformData → String
  | .delete => "FieldValue.delete"
  | .serverTimestamp => "FieldValue.serverTimestamp"
  | .numericIncrement _ => "FieldValue.increment"
  | .arrayUnion _ => "FieldValue.arrayUnion"
  | .arrayRemove _ => "FieldValue.arrayRemove"

/-- A `FieldValue` instance: an object reference (`id`) together with the
transform class and payload it was constructed with. Two instances are the
same JavaScript object exactly when their ids coincide; each fresh
construction receives an id distinct from every other live instance, and
ids 0 and 1 are reserved for the two static sentinels. -/
structure FieldValue where
  id : Nat
  data : TransformData

/-- The static `DeleteTransform.DELETE_SENTINEL` instance, allocated once. -/
def DeleteTransform.DELETE_SENTINEL : FieldValue :=
  ⟨0, TransformData.delete⟩

/-- The static `ServerTimestampTransform.SERVER_TIMESTAMP_SENTINEL`
instance, allocated once. -/
def ServerTimestampTransform.SERVER_TIMESTAMP_SENTINEL : FieldValue :=
  ⟨1, TransformData.serverTimestamp⟩

/-- `FieldValue.delete()`: returns the delete sentinel. -/
def FieldValue.delete : FieldValue :=
  DeleteTransform.DELETE_SENTINEL

/-- `FieldValue.serverTimestamp()`: returns the server-timestamp
sentinel. -/
def FieldValue.serverTimestamp : FieldValue :=
  ServerTimestampTransform.SERVER_TIMESTAMP_SENTINEL

/-- Modelled from the spec: `validateMinNumberOfArguments` lives in
`src/dev/src/validate.ts`, which is not among the sources; the spec says a
factory call below its minimum argument count fails with `ArgumentError`
synchronously at construction time. -/
def validateMinNumberOfArguments (funcName : String) (args : List JSValue)
    (minSize : Nat) : Except String Unit :=
  if args.length < minSize then
    Except.error (funcName ++ "() requires at least " ++ toString minSize
      ++ " argument.")
  else
    Except.ok ()

/-- `FieldValue.increment(n)`: checks the argument count against 1, then
constructs a fresh `NumericIncrementTransform` holding the first argument,
unvalidated. `freshId` is the reference identity of the new instance. -/
def FieldValue.increment (freshId : Nat) (args : List JSValue) :
    Except String FieldValue := do
  validateMinNumberOfArguments "FieldValue.increment" args 1
  pure ⟨freshId, TransformData.numericIncrement (args.headD JSValue.undef)⟩

/-- `FieldValue.arrayUnion(...elements)`: checks for at least one element,
then constructs a fresh `ArrayUnionTransform` over the element list. -/
def FieldValue.arrayUnion (freshId : Nat) (elements : List JSValue) :
    Except String FieldValue := do
  validateMinNumberOfArguments "FieldValue.arrayUnion" elements 1
  pure ⟨freshId, TransformData.arrayUnion elements⟩

/-- `FieldValue.arrayRemove(...elements)`: checks for at least one element,
then constructs a fresh `ArrayRemoveTransform` over the element list. -/
def FieldValue.arrayRemove (freshId : Nat) (elements : List JSValue) :
    Except String FieldValue := do
  validateMinNumberOfArguments "FieldValue.arrayRemove" elements 1
  pure ⟨freshId, TransformData.arrayRemove elements⟩

/-- `isEqual`, resolved through the class hierarchy: the base
`FieldValue.isEqual` (used by `DeleteTransform` and
`ServerTimestampTransform`) is reference identity `this === other`;
`NumericIncrementTransform` overrides it with identity or
(`instanceof NumericIncrementTransform` and `===` on the operands);
the two array transforms override it with identity or (`instanceof` the
same class and `fast-deep-equal` on the element lists). -/
def FieldValue.isEqual (a b : FieldValue) : Bool :=
  a.id == b.id ||
    match a.data, b.data with
    | .numericIncrement x, .numericIncrement y => JSValue.strictEq x y
    | .arrayUnion xs, .arrayUnion ys => JSValue.deepEqualList xs ys
    | .arrayRemove xs, .arrayRemove ys => JSValue.deepEqualList xs ys
    | _, _ => false

/-- A resolved field path; `formattedName` is the already-escaped dotted
string the encoder consumes. -/
structure FieldPath where
  formattedName : String

/-- The external value serializer, over an opaque encoded-value type `V`
whose `arrayValue` component has the opaque type `A`: `encodeValue` is
`Serializer.encodeValue`, `arrayValue` is the `.arrayValue` projection the
array transforms apply to the encoded element list. -/
structure Serializer (V A : Type) where
  encodeValue : JSValue → V
  arrayValue : V → A

/-- The wire instruction `api.DocumentTransform.IFieldTransform`, one
variant per field the transforms populate alongside `fieldPath`. -/
inductive IFieldTransform (V A : Type) where
  | setToServerValue (fieldPath : String) (value : String)
  | increment (fieldPath : String) (value : V)
  | appendMissingElements (fieldPath : String) (value : A)
  | removeAllFromArray (fieldPath : String) (value : A)
deriving DecidableEq

/-- `toProto`, resolved through the class hierarchy: `DeleteTransform`
throws, `ServerTimestampTransform` emits the `REQUEST_TIME` server value,
`NumericIncrementTransform` emits the encoded operand under `increment`,
and the array transforms emit the `arrayValue` of the encoded element list
under `appendMissingElements` / `removeAllFromArray`. -/
def FieldValue.toProto {V A : Type} (serializer : Serializer V A)
    (fieldPath : FieldPath) (fv : FieldValue) :
    Except String (IFieldTransform V A) :=
  match fv.data with
  | .delete =>
      Except.error
        "FieldValue.delete() should not be included in a FieldTransform"
  | .serverTimestamp =>
      Except.ok
        (IFieldTransform.setToServerValue fieldPath.formattedName
          "REQUEST_TIME")
  | .numericIncrement operand =>
      Except.ok
        (IFieldTransform.increment fieldPath.formattedName
          (serializer.encodeValue operand))
  | .arrayUnion elements =>
      Except.ok
        (IFieldTransform.appendMissingElements fieldPath.formattedName
          (serializer.arrayValue
            (serializer.encodeValue (JSValue.arr elements))))
  | .arrayRemove elements =>
      Except.ok
        (IFieldTransform.removeAllFromArray fieldPath.formattedName
          (serializer.arrayValue
            (serializer.encodeValue (JSValue.arr elements))))

/-- The external recursive user-input validator `validateUserInput` from
`serializer.ts`, as the transforms invoke it: the argument index, the
element value, and the `allowUndefined` flag vary per call; the policy
arguments (`allowDeletes: none`, `allowTransforms: false`, level 0,
`inArray: true`) are fixed and therefore not modelled as parameters. -/
def UserInputValidator : Type :=
  Nat → JSValue → Bool → Except String Unit

/-- Modelled from the spec: `invalidArgumentMessage` lives in
`src/dev/src/validate.ts`, which is not among the sources; the spec says
the nested-array validation error names the element's index. -/
def invalidArgumentMessageAt (index : Nat) (expectedType : String) :
    String :=
  "Element at index " ++ toString index ++ " is not a valid " ++
    expectedType ++ "."

/-- `validateArrayElement`: rejects an element that is itself an array
before any delegation, otherwise delegates to the external user-input
validator `vui`. -/
def validateArrayElement (vui : UserInputValidator) (arg : Nat)
    (value : JSValue) (allowUndefined : Bool) : Except String Unit :=
  if value.isArray then
    Except.error (invalidArgumentMessageAt arg "array element" ++
      " Nested arrays are not supported.")
  else
    vui arg value allowUndefined

/-- The `for` loop shared by `ArrayUnionTransform.validate` and
`ArrayRemoveTransform.validate`, indices ascending from `i`. -/
def validateElementsFrom (vui : UserInputValidator) (allowUndefined : Bool) :
    Nat → List JSValue → Except String Unit
  | _, [] => Except.ok ()
  | i, x :: xs => do
      validateArrayElement vui i x allowUndefined
      validateElementsFrom vui allowUndefined (i + 1) xs

/-- Modelled from the spec: `validateNumber` lives in
`src/dev/src/validate.ts`, which is not among the sources; the spec says
validating an increment raises a `ValidationError` when the operand is not
numeric. -/
def validateNumber (argName : String) (value : JSValue) :
    Except String Unit :=
  if value.isNumber then
    Except.ok ()
  else
    Except.error ("Value for argument \"" ++ argName ++
      "\" is not a valid number.")

/-- `validate`, resolved through the class hierarchy: a no-op for the two
sentinels, `validateNumber` on the operand for increments, and the
index-ascending element loop for the array transforms. -/
def FieldValue.validate (vui : UserInputValidator) (fv : FieldValue)
    (allowUndefined : Bool) : Except String Unit :=
  match fv.data with
  | .delete => Except.ok ()
  | .serverTimestamp => Except.ok ()
  | .numericIncrement operand =>
      validateNumber "FieldValue.increment()" operand
  | .arrayUnion elements => validateElementsFrom vui allowUndefined 0 elements
  | .arrayRemove elements => validateElementsFrom vui allowUndefined 0 elements

theorem beq_false_of_ne {id1 id2 : Nat} (h : id1 ≠ id2) : (id1 == id2) = false :=
  beq_eq_false_iff_ne.mpr h

mutual

theorem JSValue.deepEqual_refl : ∀ v : JSValue, JSValue.deepEqual v v = true
  | .num .nan => rfl
  | .num .negZero => rfl
  | .num .inf => rfl
  | .num .negInf => rfl
  | .num (.fin q) => by simp [JSValue.deepEqual, JSValue.strictEq, JSNum.strictEq]
  | .str s => by simp [JSValue.deepEqual, JSValue.strictEq]
  | .boolean b => by simp [JSValue.deepEqual, JSValue.strictEq]
  | .null => rfl
  | .undef => rfl
  | .arr xs => by
      have := JSValue.deepEqualList_refl xs
      simp [JSValue.deepEqual, this]

theorem JSValue.deepEqualList_refl : ∀ xs : List JSValue, JSValue.deepEqualList xs xs = true
  | [] => rfl
  | x :: xs => by
      have h1 := JSValue.deepEqual_refl x
      have h2 := JSValue.deepEqualList_refl xs
      simp [JSValue.deepEqualList, h1, h2]

end

theorem validateElementsFrom_nested (vui : UserInputValidator) (flag : Bool) :
    ∀ (es : List JSValue) (k i : Nat) (ys : List JSValue),
      es[i]? = some (JSValue.arr ys) →
      (∀ j v, j < i → es[j]? = some v →
        validateArrayElement vui (k + j) v flag = Except.ok ()) →
      validateElementsFrom vui flag k es =
        Except.error (invalidArgumentMessageAt (k + i) "array element" ++
          " Nested arrays are not supported.")
  | [], _, i, _, hi, _ => by simp at hi
  | x :: xs, k, 0, ys, hi, _ => by
      simp at hi
      subst hi
      rfl
  | x :: xs, k, i + 1, ys, hi, hpre => by
      have hx : validateArrayElement vui k x flag = Except.ok () := by
        have h0 := hpre 0 x (Nat.succ_pos i) (by simp)
        simpa using h0
      have hi' : xs[i]? = some (JSValue.arr ys) := by simpa using hi
      have hpre' : ∀ j v, j < i → xs[j]? = some v →
          validateArrayElement vui (k + 1 + j) v flag = Except.ok () := by
        intro j v hj hv
        have := hpre (j + 1) v (Nat.succ_lt_succ hj) (by simpa using hv)
        simpa [Nat.add_assoc, Nat.add_comm 1 j] using this
      have ih := validateElementsFrom_nested vui flag xs (k + 1) i ys hi' hpre'
      calc validateElementsFrom vui flag k (x :: xs)
          = validateElementsFrom vui flag (k + 1) xs := by
            rw [validateElementsFrom, hx]
            rfl
        _ = Except.error (invalidArgumentMessageAt (k + 1 + i) "array element" ++
              " Nested arrays are not supported.") := ih
        _ = Except.error (invalidArgumentMessageAt (k + (i + 1)) "array element" ++
              " Nested arrays are not supported.") := by
            simp [Nat.add_assoc, Nat.add_comm 1 i]

/-- C1: for every transform kind exactly one of the two classification
flags `includeInDocumentMask` / `includeInDocumentTransform` is true:
Delete has mask true and transform false, while ServerTimestamp,
NumericIncrement, ArrayUnion and ArrayRemove each have mask false and
transform true; the flags are never simultaneously equal. -/
theorem transform_classification_flags (d : TransformData) (n : JSValue)
    (es es' : List JSValue) :
    TransformData.includeInDocumentMask d ≠
      TransformData.includeInDocumentTransform d
    ∧ TransformData.includeInDocumentMask TransformData.delete = true
    ∧ TransformData.includeInDocumentTransform TransformData.delete = false
    ∧ TransformData.includeInDocumentMask TransformData.serverTimestamp = false
    ∧ TransformData.includeInDocumentTransform TransformData.serverTimestamp = true
    ∧ TransformData.includeInDocumentMask (TransformData.numericIncrement n) = false
    ∧ TransformData.includeInDocumentTransform (TransformData.numericIncrement n) = true
    ∧ TransformData.includeInDocumentMask (TransformData.arrayUnion es) = false
    ∧ TransformData.includeInDocumentTransform (TransformData.arrayUnion es) = true
    ∧ TransformData.includeInDocumentMask (TransformData.arrayRemove es') = false
    ∧ TransformData.includeInDocumentTransform (TransformData.arrayRemove es') = true := by
  refine ⟨?_, rfl, rfl, rfl, rfl, rfl, rfl, rfl, rfl, rfl, rfl⟩
  cases d <;> simp [TransformData.includeInDocumentMask,
    TransformData.includeInDocumentTransform]

/-- C2: every call to `delete()` returns the one delete sentinel and every
call to `serverTimestamp()` returns the one server-timestamp sentinel, so
any two such values are the same instance and `isEqual` between them is
true; a delete value is never `isEqual` to a server-timestamp value. -/
theorem sentinel_identity_isEqual :
    FieldValue.delete = DeleteTransform.DELETE_SENTINEL
    ∧ FieldValue.serverTimestamp =
        ServerTimestampTransform.SERVER_TIMESTAMP_SENTINEL
    ∧ FieldValue.isEqual FieldValue.delete FieldValue.delete = true
    ∧ FieldValue.isEqual FieldValue.serverTimestamp
        FieldValue.serverTimestamp = true
    ∧ FieldValue.isEqual FieldValue.delete FieldValue.serverTimestamp = false
    ∧ FieldValue.isEqual FieldValue.serverTimestamp FieldValue.delete = false :=
  ⟨rfl, rfl, rfl, rfl, rfl, rfl⟩

/-- C3: for every serializer, field path, operand and element lists,
encoding a server timestamp yields the `REQUEST_TIME` instruction, an
increment yields `increment` of the encoded operand, and the array
transforms yield `appendMissingElements` / `removeAllFromArray` of the
array value of the encoded element list, all at the formatted field
path. -/
theorem toProto_encoding_contract {V A : Type} (s : Serializer V A)
    (p : FieldPath) (id1 id2 id3 : Nat) (n : JSValue)
    (es es' : List JSValue) :
    FieldValue.toProto s p FieldValue.serverTimestamp =
      Except.ok (IFieldTransform.setToServerValue p.formattedName
        "REQUEST_TIME")
    ∧ FieldValue.toProto s p ⟨id1, TransformData.numericIncrement n⟩ =
        Except.ok (IFieldTransform.increment p.formattedName
          (s.encodeValue n))
    ∧ FieldValue.toProto s p ⟨id2, TransformData.arrayUnion es⟩ =
        Except.ok (IFieldTransform.appendMissingElements p.formattedName
          (s.arrayValue (s.encodeValue (JSValue.arr es))))
    ∧ FieldValue.toProto s p ⟨id3, TransformData.arrayRemove es'⟩ =
        Except.ok (IFieldTransform.removeAllFromArray p.formattedName
          (s.arrayValue (s.encodeValue (JSValue.arr es')))) :=
  ⟨rfl, rfl, rfl, rfl⟩

/-- C4: encoding the Delete singleton raises an invariant-violation error
for every serializer and field path; it never returns an instruction. -/
theorem delete_toProto_throws {V A : Type} (s : Serializer V A)
    (p : FieldPath) :
    FieldValue.toProto s p FieldValue.delete =
      Except.error
        "FieldValue.delete() should not be included in a FieldTransform" :=
  rfl

/-- C5: on two independently constructed increments (distinct instance
ids), `isEqual` coincides with the host strict numeric equality of the
operands; in particular `increment(0)` equals `increment(-0)` and
`increment(1)` differs from `increment(2)` (and `1` and `1.0` are the very
same host number, hence equal). -/
theorem increment_isEqual_numeric (a b : JSNum) (id1 id2 : Nat)
    (h : id1 ≠ id2) :
    FieldValue.isEqual ⟨id1, TransformData.numericIncrement (JSValue.num a)⟩
        ⟨id2, TransformData.numericIncrement (JSValue.num b)⟩ =
      JSNum.strictEq a b
    ∧ FieldValue.isEqual
        ⟨id1, TransformData.numericIncrement (JSValue.num (JSNum.fin 0))⟩
        ⟨id2, TransformData.numericIncrement (JSValue.num JSNum.negZero)⟩ = true
    ∧ FieldValue.isEqual
        ⟨id1, TransformData.numericIncrement (JSValue.num (JSNum.fin 1))⟩
        ⟨id2, TransformData.numericIncrement (JSValue.num (JSNum.fin 2))⟩ = false := by
  have hb : (id1 == id2) = false := beq_false_of_ne h
  refine ⟨?_, ?_, ?_⟩ <;>
    simp [FieldValue.isEqual, hb, JSValue.strictEq, JSNum.strictEq]

/-- C5 witness at `a = b = 1`, ids 2 and 3. -/
theorem increment_isEqual_numeric_witness :
    FieldValue.isEqual
        ⟨2, TransformData.numericIncrement (JSValue.num (JSNum.fin 1))⟩
        ⟨3, TransformData.numericIncrement (JSValue.num (JSNum.fin 1))⟩ =
      JSNum.strictEq (JSNum.fin 1) (JSNum.fin 1) :=
  (increment_isEqual_numeric (JSNum.fin 1) (JSNum.fin 1) 2 3
    (by decide)).1

/-- C6: on two independently constructed array transforms of the same
class, `isEqual` is exactly order-sensitive deep structural equality of
the element lists (so equal lists give true, `[1,2]` versus `[2,1]` gives
false), and an ArrayUnion is never `isEqual` to a distinct ArrayRemove. -/
theorem array_transform_isEqual_structural (es es' : List JSValue)
    (id1 id2 : Nat) (h : id1 ≠ id2) :
    FieldValue.isEqual ⟨id1, TransformData.arrayUnion es⟩
        ⟨id2, TransformData.arrayUnion es'⟩ = JSValue.deepEqualList es es'
    ∧ FieldValue.isEqual ⟨id1, TransformData.arrayRemove es⟩
        ⟨id2, TransformData.arrayRemove es'⟩ = JSValue.deepEqualList es es'
    ∧ FieldValue.isEqual ⟨id1, TransformData.arrayUnion es⟩
        ⟨id2, TransformData.arrayUnion es⟩ = true
    ∧ FieldValue.isEqual ⟨id1, TransformData.arrayRemove es⟩
        ⟨id2, TransformData.arrayRemove es⟩ = true
    ∧ FieldValue.isEqual
        ⟨id1, TransformData.arrayUnion
          [JSValue.num (JSNum.fin 1), JSValue.num (JSNum.fin 2)]⟩
        ⟨id2, TransformData.arrayUnion
          [JSValue.num (JSNum.fin 2), JSValue.num (JSNum.fin 1)]⟩ = false
    ∧ FieldValue.isEqual
        ⟨id1, TransformData.arrayRemove
          [JSValue.num (JSNum.fin 1), JSValue.num (JSNum.fin 2)]⟩
        ⟨id2, TransformData.arrayRemove
          [JSValue.num (JSNum.fin 2), JSValue.num (JSNum.fin 1)]⟩ = false
    ∧ FieldValue.isEqual ⟨id1, TransformData.arrayUnion es⟩
        ⟨id2, TransformData.arrayRemove es'⟩ = false := by
  have hb : (id1 == id2) = false := beq_false_of_ne h
  refine ⟨?_, ?_, ?_, ?_, ?_, ?_, ?_⟩ <;>
    simp [FieldValue.isEqual, hb, JSValue.deepEqualList_refl] <;>
    decide

/-- C6 witness at ids 2 and 3 with a one-element list. -/
theorem array_transform_isEqual_structural_witness :
    FieldValue.isEqual ⟨2, TransformData.arrayUnion [JSValue.str "x"]⟩
        ⟨3, TransformData.arrayUnion [JSValue.str "x"]⟩ =
      JSValue.deepEqualList [JSValue.str "x"] [JSValue.str "x"] :=
  (array_transform_isEqual_structural [JSValue.str "x"] [JSValue.str "x"]
    2 3 (by decide)).1

/-- C7: when the element at index `i` of an array transform's list is
itself an array and every earlier element validates cleanly, `validate`
raises the validation error naming index `i` and saying nested arrays are
not supported, for both transform classes and every `allowUndefined` flag;
moreover the array check fires before any delegation: `validateArrayElement`
on an array value errors identically for every delegate validator and every
flag. -/
theorem nested_array_element_rejected (vui vui' : UserInputValidator)
    (es : List JSValue) (i : Nat) (ys : List JSValue) (flag flag' : Bool)
    (hi : es[i]? = some (JSValue.arr ys))
    (hpre : ∀ j v, j < i → es[j]? = some v →
      validateArrayElement vui j v flag = Except.ok ()) :
    (∀ id, FieldValue.validate vui ⟨id, TransformData.arrayUnion es⟩ flag =
        Except.error (invalidArgumentMessageAt i "array element" ++
          " Nested arrays are not supported.")
      ∧ FieldValue.validate vui ⟨id, TransformData.arrayRemove es⟩ flag =
        Except.error (invalidArgumentMessageAt i "array element" ++
          " Nested arrays are not supported."))
    ∧ validateArrayElement vui' i (JSValue.arr ys) flag' =
        Except.error (invalidArgumentMessageAt i "array element" ++
          " Nested arrays are not supported.") := by
  have hpre0 : ∀ j v, j < i → es[j]? = some v →
      validateArrayElement vui (0 + j) v flag = Except.ok () := by
    intro j v hj hv
    simpa using hpre j v hj hv
  have base := validateElementsFrom_nested vui flag es 0 i ys hi hpre0
  rw [Nat.zero_add] at base
  exact ⟨fun _ => ⟨base, base⟩, rfl⟩

/-- C7 witness: a single-element list whose element is a nested array, at
index 0, under a delegate validator that accepts everything. -/
theorem nested_array_element_rejected_witness :
    FieldValue.validate (fun _ _ _ => Except.ok ())
        ⟨2, TransformData.arrayUnion [JSValue.arr []]⟩ false =
      Except.error
        "Element at index 0 is not a valid array element. Nested arrays are not supported." :=
  ((nested_array_element_rejected (fun _ _ _ => Except.ok ())
      (fun _ _ _ => Except.ok ()) [JSValue.arr []] 0 [] false true rfl
      (fun j _ hj _ => absurd hj (Nat.not_lt_zero j))).1 2).1

/-- C8: `increment(x)` with a non-numeric operand returns normally at
construction (no type check there) and the later `validate()` call raises
the not-a-number validation error. -/
theorem increment_nonnumeric_validate_fails (id : Nat) (x : JSValue)
    (hx : x.isNumber = false) (vui : UserInputValidator) (flag : Bool) :
    FieldValue.increment id [x] =
      Except.ok ⟨id, TransformData.numericIncrement x⟩
    ∧ FieldValue.validate vui ⟨id, TransformData.numericIncrement x⟩ flag =
      Except.error
        "Value for argument \"FieldValue.increment()\" is not a valid number." := by
  refine ⟨rfl, ?_⟩
  simp [FieldValue.validate, validateNumber, hx]

/-- C8 witness at the string operand `"x"`. -/
theorem increment_nonnumeric_validate_fails_witness :
    FieldValue.increment 2 [JSValue.str "x"] =
      Except.ok ⟨2, TransformData.numericIncrement (JSValue.str "x")⟩
    ∧ FieldValue.validate (fun _ _ _ => Except.ok ())
        ⟨2, TransformData.numericIncrement (JSValue.str "x")⟩ false =
      Except.error
        "Value for argument \"FieldValue.increment()\" is not a valid number." :=
  increment_nonnumeric_validate_fails 2 (JSValue.str "x") rfl
    (fun _ _ _ => Except.ok ()) false

/-- C9: the factories `increment`, `arrayUnion` and `arrayRemove` raise an
argument error synchronously when called with zero arguments, and return
the constructed transform without raising when given at least one
argument. -/
theorem factory_min_arguments (id1 id2 id3 id4 id5 id6 : Nat) (x : JSValue)
    (xs : List JSValue) :
    FieldValue.increment id1 [] =
      Except.error "FieldValue.increment() requires at least 1 argument."
    ∧ FieldValue.arrayUnion id2 [] =
      Except.error "FieldValue.arrayUnion() requires at least 1 argument."
    ∧ FieldValue.arrayRemove id3 [] =
      Except.error "FieldValue.arrayRemove() requires at least 1 argument."
    ∧ FieldValue.increment id4 (x :: xs) =
      Except.ok ⟨id4, TransformData.numericIncrement x⟩
    ∧ FieldValue.arrayUnion id5 (x :: xs) =
      Except.ok ⟨id5, TransformData.arrayUnion (x :: xs)⟩
    ∧ FieldValue.arrayRemove id6 (x :: xs) =
      Except.ok ⟨id6, TransformData.arrayRemove (x :: xs)⟩ :=
  ⟨rfl, rfl, rfl, rfl, rfl, rfl⟩

/-- C10: `isEqual` is reflexive on every instance through the
reference-identity short-circuit, even on `increment(NaN)` whose payload is
not `===` to itself, while two independently constructed `increment(NaN)`
instances (distinct ids) are not `isEqual`. -/
theorem isEqual_reflexive_identity (x : FieldValue) (id1 id2 : Nat)
    (h : id1 ≠ id2) :
    FieldValue.isEqual x x = true
    ∧ FieldValue.isEqual
        ⟨id1, TransformData.numericIncrement (JSValue.num JSNum.nan)⟩
        ⟨id2, TransformData.numericIncrement (JSValue.num JSNum.nan)⟩ = false := by
  have hb : (id1 == id2) = false := beq_false_of_ne h
  constructor
  · simp [FieldValue.isEqual]
  · simp [FieldValue.isEqual, hb, JSValue.strictEq, JSNum.strictEq]

/-- C10 witness: the NaN increment instance with id 5 is `isEqual` to
itself. -/
theorem isEqual_reflexive_identity_witness :
    FieldValue.isEqual
        ⟨5, TransformData.numericIncrement (JSValue.num JSNum.nan)⟩
        ⟨5, TransformData.numericIncrement (JSValue.num JSNum.nan)⟩ = true :=
  (isEqual_reflexive_identity
    ⟨5, TransformData.numericIncrement (JSValue.num JSNum.nan)⟩ 2 3
    (by decide)).1

end Firestore
